import Mathlib

/-!
Shallow embedding of the pmgui PMAPI middleware (src/api/__init__.py,
src/util/create_database.py) and verification of its specification claims.

Machine-level Python details (Flask plumbing, logging, sqlite cursors) are
modelled by explicit data: a table schema is a list of column descriptors as
read from pragma_table_info, exceptions are an inductive error type, JSON
payloads are a small JSON value type, and fallible Python code returns Except.
-/

namespace Pmgui

/-- Column descriptor: the data stored in one `DataObject.DotDict` entry built
by `DataObject.__init__` from a `pragma_table_info` row
(name, datatype, nullable, default, primarykey). -/
structure Column where
  name : String
  datatype : String
  nullable : Bool
  dflt : Option String
  primarykey : Bool
deriving DecidableEq, Repr

/-- `DataObject.columns`: the list of column names (`[col.name for col in self]`). -/
def columns (schema : List Column) : List String :=
  schema.map (fun c => c.name)

/-- `DataObject.primarykeys`: names of primary-key columns
(`[col.name for col in self if col.primarykey]`). -/
def primarykeys (schema : List Column) : List String :=
  (schema.filter (fun c => c.primarykey)).map (fun c => c.name)

/-- The column-selection loop shared (verbatim, twice) by
`DataObject.get_column_objects` and `DataObject.select_columns`:
for each column, a primary key is force-appended when `include_primarykeys`,
otherwise the column is appended when its name is in `include` and not in
`exclude`. -/
def pick (incl excl : List String) (ipk : Bool) : List Column → List Column
  | [] => []
  | c :: rest =>
    if c.primarykey = true ∧ ipk = true then c :: pick incl excl ipk rest
    else if c.name ∈ incl ∧ c.name ∉ excl then c :: pick incl excl ipk rest
    else pick incl excl ipk rest

/-- The exclude-list purge both `get_column_objects` and `select_columns`
start with: when `exclude` is non-empty (Python truthiness) and
`include_primarykeys` is set, primary-key names are removed from `exclude`
(`exclude = [col for col in exclude if col not in self.primarykeys]`). -/
def purge_excluded (schema : List Column) (excl : List String)
    (ipk : Bool) : List String :=
  if excl ≠ [] ∧ ipk = true then
    excl.filter (fun n => decide (n ∉ primarykeys schema))
  else excl

/-- `DataObject.get_column_objects(include, exclude, include_primarykeys)`:
primary keys are purged from `exclude`; an empty `include` selects all
columns not excluded; a non-empty `include` runs the selection loop. -/
def get_column_objects (schema : List Column) (incl excl : List String)
    (ipk : Bool) : List Column :=
  if incl = [] then
    schema.filter (fun c => decide (c.name ∉ purge_excluded schema excl ipk))
  else
    pick incl (purge_excluded schema excl ipk) ipk schema

/-- `DataObject.get_column_names`: the names of `get_column_objects`. -/
def get_column_names (schema : List Column) (incl excl : List String)
    (ipk : Bool) : List String :=
  (get_column_objects schema incl excl ipk).map (fun c => c.name)

/-- `DataObject.select_typecast(column)`: TIMESTAMP columns become an integer
epoch-seconds cast aliased back to the column name, DATETIME columns a
`datetime()` normalization aliased back, anything else the bare name. -/
def select_typecast (col : Column) : String :=
  if col.datatype = "TIMESTAMP" then
    "CAST(strftime('%s', " ++ col.name ++ ") as integer) AS " ++ col.name
  else if col.datatype = "DATETIME" then
    "datetime(" ++ col.name ++ ") AS " ++ col.name
  else
    col.name

/-- `DataObject.select_columns(include, exclude, include_primarykeys)`:
the source inlines the same selection logic as `get_column_objects` and then
formats each selected column with the same typecasts as `select_typecast`,
joining with ", ". -/
def select_columns (schema : List Column) (incl excl : List String)
    (ipk : Bool) : String :=
  let flist := if incl = [] then
      schema.filter (fun c => decide (c.name ∉ purge_excluded schema excl ipk))
    else
      pick incl (purge_excluded schema excl ipk) ipk schema
  let slist := flist.map (fun col =>
    if col.datatype = "TIMESTAMP" then
      "CAST(strftime('%s', " ++ col.name ++ ") as integer) AS " ++ col.name
    else if col.datatype = "DATETIME" then
      "datetime(" ++ col.name ++ ") AS " ++ col.name
    else
      col.name)
  String.intercalate ", " slist

/-- A small JSON-like value type for response payloads (dict values passed to
json.dumps; elapsed times are modelled as integers). -/
inductive Jv where
  | str : String → Jv
  | int : Int → Jv
  | obj : List (String × Jv) → Jv

/-- Python truthiness of a payload value: empty string, zero and empty dict
are falsy. -/
def Jv.truthy : Jv → Bool
  | .str s => !(s == "")
  | .int n => !(n == 0)
  | .obj l => !l.isEmpty

/-- The ApiException subclasses of src/api/__init__.py. -/
inductive ApiExcKind where
  | notFound
  | methodNotAllowed
  | invalidArgument
  | conflict
  | timeout
  | internalError
  | notImplemented
deriving DecidableEq, Repr

/-- The `self.code` each ApiException subclass constructor sets. -/
def ApiExcKind.code : ApiExcKind → Nat
  | .notFound => 404
  | .methodNotAllowed => 405
  | .invalidArgument => 406
  | .conflict => 409
  | .timeout => 500
  | .internalError => 500
  | .notImplemented => 501

/-- Python exception values raised or handled by this module: the builtin
ValueError and TypeError, and the ApiException family (kind, message,
optional details). Only ApiException instances carry the marker attribute
that `exception_response` probes. -/
inductive PyErr where
  | valueError : String → PyErr
  | typeError : String → PyErr
  | apiException : ApiExcKind → String → Option Jv → PyErr

/-- Whether an exception is an instance of the `InvalidArgument` class
(equivalently: has the ApiException marker and code 406). -/
def PyErr.isInvalidArgumentClass : PyErr → Bool
  | .apiException .invalidArgument _ _ => true
  | _ => false

/-- `DataObject.where_condition(column)`: linear search of the schema for the
first descriptor with the given name; `raise ValueError` when none is found;
otherwise the datatype-specific comparison fragment (the SELECT casts without
the alias). -/
def where_condition (schema : List Column) (column : String) :
    Except PyErr String :=
  match schema.find? (fun c => c.name == column) with
  | none => .error (.valueError "Non-existent column specified")
  | some col =>
    if col.datatype = "TIMESTAMP" then
      .ok ("CAST(strftime('%s', " ++ col.name ++ ") as integer)")
    else if col.datatype = "DATETIME" then
      .ok ("datetime(" ++ col.name ++ ")")
    else
      .ok col.name

/-- `ApiException.to_dict()`: a dict with the message, plus the details only
when `getattr(self, 'details', None)` is truthy. -/
def to_dict (message : String) (details : Option Jv) : Jv :=
  .obj (("message", Jv.str message) ::
    (match details with
     | some d => if d.truthy = true then [("details", d)] else []
     | none => []))

/-- The argument handed to `api.exception_response`: either a Python exception
together with the `traceback.format_exception` frame list the runtime would
produce for it, or a non-exception object (only its type name matters). -/
inductive ExcArg where
  | exc : PyErr → List String → ExcArg
  | nonExc : String → ExcArg

/-- The body of `api.exception_response` inside its try block. An ApiException
(detected through its marker attribute) yields its own code and `to_dict`
payload; any other exception yields 500 with the last trace frame as `error`
and the frames `e[1:-1]` joined as `trace` (indexing an empty frame list is
the IndexError the surrounding except catches); a non-exception argument
yields the unsupported-argument payload. -/
def exception_response_body : ExcArg → Except Unit (Nat × Jv)
  | .exc (.apiException kind message details) _ =>
    .ok (kind.code, to_dict message details)
  | .exc _ frames =>
    match frames.getLast? with
    | none => .error ()
    | some lastFrame =>
      .ok (500, .obj [("error", .str lastFrame),
                      ("trace", .str (String.join ((frames.drop 1).dropLast)))])
  | .nonExc typeName =>
    .ok (500, .obj [("error", .str "Uknown"),
                    ("details", .str
                      "api.exception_response() received unsupported argument"),
                    ("type", .str typeName)])

/-- `api.exception_response(ex)`: a None (falsy) argument returns the fixed
received-None payload before the try block; otherwise the body runs and any
exception it raises degrades to the generic internal-failure 500 payload. -/
def exception_response (ex : Option ExcArg) : Nat × Jv :=
  match ex with
  | none =>
    (500, .obj [("error", .str "Unknown"),
                ("details", .str "api.exception_response() received: None!")])
  | some a =>
    match exception_response_body a with
    | .ok r => r
    | .error _ =>
      (500, .obj [("error", .str "Internal Error"),
                  ("details", .str "api.exception_response() internal failure!")])

/-- The per-request context `api.__make_response` reads: the configured
`app.apiversion` integer, the elapsed CPU and wall-clock times since the
request started (Python floats, modelled as integers), and the HTTP methods
registered for the matched route. -/
structure Ctx where
  apiversion : Int
  tCpu : Int
  tReal : Int
  urlMethods : List String

/-- A Flask response as far as this module shapes one: body text, status and
the headers set explicitly. -/
structure Resp where
  response : String
  status : Nat
  headers : List (String × String)
deriving DecidableEq, Repr

/-- Python dict key assignment `d[k] = v`: replace the first binding of the
key in place, or append a new binding. -/
def setKey (k : String) (v : Jv) : List (String × Jv) → List (String × Jv)
  | [] => [(k, v)]
  | p :: rest => if p.1 = k then (k, v) :: rest else p :: setKey k v rest

/-- Read a key of a payload dict. -/
def getKey (k : String) : List (String × Jv) → Option Jv
  | [] => none
  | p :: rest => if p.1 = k then some p.2 else getKey k rest

/-- The `api` metadata object `__make_response` injects. -/
def apiMeta (ctx : Ctx) : Jv :=
  .obj [("version", .int ctx.apiversion),
        ("t_cpu", .int ctx.tCpu),
        ("t_real", .int ctx.tReal)]

/-- `api.__make_response(code, payload)`. The asserts restrict the arguments
to an int and a dict, which the argument types already enforce. Inside the
try block the `api` metadata is stored into the payload, the result is
serialized (`json.dumps` is the failure point, passed in as `ser`), and the
response carries the Allow header (route methods minus HEAD and OPTIONS);
any exception falls into the except block, which answers with the minimal
500 response instead of raising. -/
def make_response (ctx : Ctx) (ser : Jv → Except String String) (code : Nat)
    (payload : List (String × Jv)) : Resp :=
  match ser (Jv.obj (setKey "api" (apiMeta ctx) payload)) with
  | .ok body =>
    { response := body
      status := code
      headers :=
        [("Allow", String.intercalate ", "
            (ctx.urlMethods.filter (fun m => decide (m ∉ ["HEAD", "OPTIONS"])))),
         ("Content-Type", "application/json")] }
  | .error e =>
    { response := "api.__make_response() Internal Error: " ++ e
      status := 500
      headers := [] }

/-- A quoted CSV field as Python csv.writer (QUOTE_MINIMAL, comma delimiter,
double-quote quoting) writes it: quoted, with inner quotes doubled, whenever
the field holds the delimiter, the quote character or a line-break. -/
def csvField (s : String) : String :=
  if s.toList.any (fun c => c = ',' ∨ c = '"' ∨ c = '\r' ∨ c = '\n') then
    "\"" ++ String.join (s.toList.map (fun c =>
      if c = '"' then "\"\"" else String.singleton c)) ++ "\""
  else s

/-- One `csv.writer.writerow` output: the quoted fields joined with commas
and the default CRLF line terminator. -/
def csvRow (fields : List String) : String :=
  String.intercalate "," (fields.map csvField) ++ "\r\n"

/-- A cursor-like query result: the column names (`key[0]` of each entry of
`cursor.description`) and the data rows, cells already rendered to text as
csv.writer would. -/
structure Cursor where
  description : List String
  rows : List (List String)

/-- The `generate(cursor)` generator inside `api.stream_result_as_csv`: the
chunks it yields, in order. The StringIO buffer is truncated after every
yield, so the first chunk is exactly the header row written from the column
names and each later chunk exactly one data row. -/
def generate (cursor : Cursor) : List String :=
  csvRow cursor.description :: cursor.rows.map csvRow

/-- Python `"{:02}".format(n)`: decimal, zero-padded to two digits. -/
def pad2 (n : Nat) : String :=
  if n < 10 then "0" ++ toString n else toString n

/-- The sector-counter columns of the hitcount table, from the loop in
src/util/create_database.py: for each sector 0..36, protons p01..p12 then
electrons e01..e08. -/
def hitcountSectorCols : List String :=
  (List.range 37).flatMap (fun sector =>
    ((List.range' 1 12).map (fun proton =>
      "s" ++ pad2 sector ++ "p" ++ pad2 proton)) ++
    ((List.range' 1 8).map (fun electron =>
      "s" ++ pad2 sector ++ "e" ++ pad2 electron)))

/-- The telescope-counter columns for one telescope prefix: ac1..ac2,
d1p1..d1p4, d2p1, trash1..trash2. -/
def telescopeCols (t : String) : List String :=
  ((List.range' 1 2).map (fun ac => t ++ "ac" ++ toString ac)) ++
  ((List.range' 1 4).map (fun d1 => t ++ "d1p" ++ toString d1)) ++
  [t ++ "d2p1"] ++
  ((List.range' 1 2).map (fun trash => t ++ "trash" ++ toString trash))

/-- The telescope-counter columns, for the sun-pointing then the rotating
telescope. -/
def hitcountTelescopeCols : List String :=
  ["st", "rt"].flatMap telescopeCols

/-- All columns of the generated hitcount table, in DDL order: the fixed key
columns, then the sector counters, then the telescope counters. -/
def hitcountColumns : List String :=
  ["timestamp", "session_id"] ++ hitcountSectorCols ++ hitcountTelescopeCols

/-- The marker-attribute probe `getattr(ex, 'ApiException', None)`: truthy
exactly for ApiException instances (the class attribute `ApiException =
True`). -/
def PyErr.hasApiMarker : PyErr → Bool
  | .apiException _ _ _ => true
  | _ => false

/-- Values a DotDict descriptor can hold (none of them callable). -/
inductive PyVal where
  | none : PyVal
  | str : String → PyVal
  | bool : Bool → PyVal
deriving DecidableEq, Repr

/-- A `DataObject.DotDict` instance: a dict from keys to values, with
attribute access falling back to `dict.get` (hence `None` for a missing
key) because the class sets `__getattr__ = dict.get`. -/
def dotDictGetattr (d : List (String × PyVal)) (attr : String) : PyVal :=
  match d.find? (fun p => p.1 = attr) with
  | some p => p.2
  | none => .none

/-- `DotDict.__str__`: evaluates `self.getattr('name', '(null)')`. The
instance has no `getattr` attribute, so attribute lookup falls back to
`dict.get(self, 'getattr')`; calling the resulting value raises TypeError
unless it is callable — and no DotDict value is. -/
def dotDictStr (d : List (String × PyVal)) : Except PyErr String :=
  match dotDictGetattr d "getattr" with
  | .none => .error (.typeError "'NoneType' object is not callable")
  | .str _ => .error (.typeError "'str' object is not callable")
  | .bool _ => .error (.typeError "'bool' object is not callable")

/-- The descriptor dict `DataObject.__init__` builds for one
pragma_table_info row (`DotDict(name=..., datatype=..., nullable=...,
default=..., primarykey=...)`). -/
def mkDescriptor (name datatype : String) (nullable : Bool)
    (dflt : Option String) (primarykey : Bool) : List (String × PyVal) :=
  [("name", .str name),
   ("datatype", .str datatype),
   ("nullable", .bool nullable),
   ("default", match dflt with | some s => .str s | Option.none => .none),
   ("primarykey", .bool primarykey)]

/-- The list comprehension `[str(c) for c in self]` of `DataObject.__str__`:
evaluated left to right, the first TypeError propagates. -/
def strEach : List (List (String × PyVal)) → Except PyErr (List String)
  | [] => .ok []
  | d :: rest =>
    match dotDictStr d with
    | .error e => .error e
    | .ok s =>
      match strEach rest with
      | .error e => .error e
      | .ok ss => .ok (s :: ss)

/-- `DataObject.__str__`: join the rendered descriptors with newlines. -/
def dataObjectStr (descs : List (List (String × PyVal))) : Except PyErr String :=
  match strEach descs with
  | .ok ss => .ok (String.intercalate "\n" ss)
  | .error e => .error e

/-- A concrete two-column table (integer primary key, text payload) used to
instantiate the universally quantified theorems at evaluable inputs. -/
def demoIdCol : Column :=
  { name := "id", datatype := "INTEGER", nullable := false,
    dflt := none, primarykey := true }

/-- Second column of the concrete demo table. -/
def demoTxCol : Column :=
  { name := "tx", datatype := "TEXT", nullable := true,
    dflt := none, primarykey := false }

/-- A concrete TIMESTAMP-typed column for instantiating fragment theorems. -/
def demoTsCol : Column :=
  { name := "ts", datatype := "TIMESTAMP", nullable := false,
    dflt := none, primarykey := false }

/-- The concrete demo schema. -/
def demoSchema : List Column :=
  [demoIdCol, demoTsCol, demoTxCol]

/- ===================== Theorems ===================== -/

theorem mem_pick {incl excl : List String} {ipk : Bool} {l : List Column}
    {c : Column} :
    c ∈ pick incl excl ipk l ↔
      c ∈ l ∧ ((c.primarykey = true ∧ ipk = true) ∨
        (c.name ∈ incl ∧ c.name ∉ excl)) := by
  induction l with
  | nil => simp [pick]
  | cons d rest ih =>
    rw [pick]
    by_cases h1 : d.primarykey = true ∧ ipk = true
    · rw [if_pos h1]
      simp only [List.mem_cons, ih]
      constructor
      · rintro (rfl | ⟨hd, hc⟩)
        · exact ⟨Or.inl rfl, Or.inl h1⟩
        · exact ⟨Or.inr hd, hc⟩
      · rintro ⟨rfl | hd, hc⟩
        · exact Or.inl rfl
        · exact Or.inr ⟨hd, hc⟩
    · rw [if_neg h1]
      by_cases h2 : d.name ∈ incl ∧ d.name ∉ excl
      · rw [if_pos h2]
        simp only [List.mem_cons, ih]
        constructor
        · rintro (rfl | ⟨hd, hc⟩)
          · exact ⟨Or.inl rfl, Or.inr h2⟩
          · exact ⟨Or.inr hd, hc⟩
        · rintro ⟨rfl | hd, hc⟩
          · exact Or.inl rfl
          · exact Or.inr ⟨hd, hc⟩
      · rw [if_neg h2, ih]
        simp only [List.mem_cons]
        constructor
        · rintro ⟨hd, hc⟩
          exact ⟨Or.inr hd, hc⟩
        · rintro ⟨rfl | hd, hc⟩
          · rcases hc with h | h
            · exact absurd h h1
            · exact absurd h h2
          · exact ⟨hd, hc⟩

theorem purge_excluded_false (schema : List Column) (excl : List String) :
    purge_excluded schema excl false = excl := by
  rw [purge_excluded, if_neg]
  rintro ⟨_, h⟩
  exact Bool.noConfusion h

theorem name_mem_primarykeys {schema : List Column} {col : Column}
    (hmem : col ∈ schema) (hpk : col.primarykey = true) :
    col.name ∈ primarykeys schema := by
  simp only [primarykeys, List.mem_map, List.mem_filter]
  exact ⟨col, ⟨hmem, hpk⟩, rfl⟩

theorem pk_not_mem_purge_true (schema : List Column) (excl : List String)
    {col : Column} (hmem : col ∈ schema) (hpk : col.primarykey = true) :
    col.name ∉ purge_excluded schema excl true := by
  have hpkname := name_mem_primarykeys hmem hpk
  rw [purge_excluded]
  split
  · intro hcontra
    have h2 := (List.mem_filter.mp hcontra).2
    simp only [decide_eq_true_eq] at h2
    exact h2 hpkname
  · next hcond =>
    have hexcl : excl = [] := by
      by_contra hne
      exact hcond ⟨hne, rfl⟩
    subst hexcl
    simp

theorem pk_mem_gco_true (schema : List Column) (incl excl : List String)
    (col : Column) (hmem : col ∈ schema) (hpk : col.primarykey = true) :
    col ∈ get_column_objects schema incl excl true := by
  have hnmem := pk_not_mem_purge_true schema excl hmem hpk
  rw [get_column_objects]
  split
  · rw [List.mem_filter]
    exact ⟨hmem, decide_eq_true hnmem⟩
  · exact mem_pick.mpr ⟨hmem, Or.inl ⟨hpk, rfl⟩⟩

theorem name_mem_filter_names (schema : List Column) (excl : List String)
    (n : String) :
    n ∈ (schema.filter (fun c => decide (c.name ∉ excl))).map
        (fun c => c.name) ↔
      (∃ c ∈ schema, c.name = n) ∧ n ∉ excl := by
  simp only [List.mem_map, List.mem_filter, decide_eq_true_eq]
  constructor
  · rintro ⟨c, ⟨hc, hdec⟩, rfl⟩
    exact ⟨⟨c, hc, rfl⟩, hdec⟩
  · rintro ⟨⟨c, hc, rfl⟩, hn⟩
    exact ⟨c, ⟨hc, hn⟩, rfl⟩

theorem name_mem_pick_names_false (schema : List Column)
    (incl excl : List String) (n : String) :
    n ∈ (pick incl excl false schema).map (fun c => c.name) ↔
      (∃ c ∈ schema, c.name = n) ∧ n ∈ incl ∧ n ∉ excl := by
  simp only [List.mem_map, mem_pick]
  constructor
  · rintro ⟨c, ⟨hc, hcond⟩, rfl⟩
    rcases hcond with ⟨_, hfalse⟩ | ⟨hin, hout⟩
    · exact absurd hfalse (by simp)
    · exact ⟨⟨c, hc, rfl⟩, hin, hout⟩
  · rintro ⟨⟨c, hc, rfl⟩, hin, hout⟩
    exact ⟨c, ⟨hc, Or.inr ⟨hin, hout⟩⟩, rfl⟩

/-- Claim C1: for every table schema and include/exclude name lists, every
primary-key column is in the result of `get_column_objects` (and hence of
`get_column_names`) whenever `include_primarykeys` is true, regardless of
the primary key occurring in `exclude` or being absent from a non-empty
`include`; and a primary key's name is absent from the result exactly when
`include_primarykeys` is false and the key is either in `exclude` or
omitted from a non-empty `include`. -/
theorem primarykey_inclusion_guarantee (schema : List Column)
    (incl excl : List String) (col : Column)
    (hmem : col ∈ schema) (hpk : col.primarykey = true) :
    (col ∈ get_column_objects schema incl excl true ∧
      col.name ∈ get_column_names schema incl excl true) ∧
    (∀ ipk : Bool, col.name ∉ get_column_names schema incl excl ipk ↔
      (ipk = false ∧ (col.name ∈ excl ∨ (incl ≠ [] ∧ col.name ∉ incl)))) := by
  have hobj := pk_mem_gco_true schema incl excl col hmem hpk
  have hname : col.name ∈ get_column_names schema incl excl true := by
    rw [get_column_names]
    exact List.mem_map.mpr ⟨col, hobj, rfl⟩
  refine ⟨⟨hobj, hname⟩, fun ipk => ?_⟩
  cases ipk with
  | true =>
    constructor
    · intro habs
      exact absurd hname habs
    · rintro ⟨hfalse, _⟩
      exact Bool.noConfusion hfalse
  | false =>
    have hex : ∃ c ∈ schema, c.name = col.name := ⟨col, hmem, rfl⟩
    rw [get_column_names, get_column_objects, purge_excluded_false]
    by_cases hincl : incl = []
    · rw [if_pos hincl, name_mem_filter_names]
      constructor
      · intro h
        refine ⟨rfl, Or.inl ?_⟩
        by_contra hnin
        exact h ⟨hex, hnin⟩
      · rintro ⟨_, h | ⟨hne, _⟩⟩
        · rintro ⟨_, hnin⟩
          exact hnin h
        · exact absurd hincl hne
    · rw [if_neg hincl, name_mem_pick_names_false]
      constructor
      · intro h
        refine ⟨rfl, ?_⟩
        by_cases hin : col.name ∈ incl
        · refine Or.inl ?_
          by_contra hout
          exact h ⟨hex, hin, hout⟩
        · exact Or.inr ⟨hincl, hin⟩
      · rintro ⟨_, hcase⟩ ⟨_, hin, hout⟩
        rcases hcase with h | ⟨_, hnin⟩
        · exact hout h
        · exact hnin hin

/-- Witness for C1: on the concrete demo schema the primary key `id` is kept
when include_primarykeys is true although excluded and not included, and is
dropped when include_primarykeys is false and it is excluded. -/
theorem primarykey_inclusion_guarantee_witness :
    demoIdCol ∈ get_column_objects demoSchema ["tx"] ["id"] true ∧
    "id" ∈ get_column_names demoSchema ["tx"] ["id"] true ∧
    "id" ∉ get_column_names demoSchema ["tx"] ["id"] false := by
  have h := primarykey_inclusion_guarantee demoSchema ["tx"] ["id"] demoIdCol
    (by decide) rfl
  exact ⟨h.1.1, h.1.2, (h.2 false).mpr ⟨rfl, Or.inl (by decide)⟩⟩

/-- Claim C4: for every schema and every (include, exclude,
include_primarykeys) triple, `select_columns` returns exactly the per-column
typecasts of `get_column_objects` with the same arguments, in the same order,
joined with ", " — the inlined selection-plus-formatting logic is equivalent
to composing the two separate operations. -/
theorem select_columns_eq_composition (schema : List Column)
    (incl excl : List String) (ipk : Bool) :
    select_columns schema incl excl ipk =
      String.intercalate ", "
        ((get_column_objects schema incl excl ipk).map select_typecast) := rfl

/-- Claim C3: for every column descriptor reachable by name lookup in its
schema, a TIMESTAMP column's SELECT fragment is the integer epoch-seconds
cast aliased back to the column name and its WHERE fragment the same cast
without the alias; a DATETIME column's SELECT fragment is the engine's
datetime() normalization aliased back and its WHERE fragment the same without
the alias; any other declared type yields the bare column name from both
builders. -/
theorem typecast_fragments (schema : List Column) (col : Column)
    (h : schema.find? (fun c => c.name == col.name) = some col) :
    (col.datatype = "TIMESTAMP" →
      where_condition schema col.name =
        .ok ("CAST(strftime('%s', " ++ col.name ++ ") as integer)") ∧
      select_typecast col =
        ("CAST(strftime('%s', " ++ col.name ++ ") as integer)") ++
          " AS " ++ col.name) ∧
    (col.datatype = "DATETIME" →
      where_condition schema col.name = .ok ("datetime(" ++ col.name ++ ")") ∧
      select_typecast col =
        ("datetime(" ++ col.name ++ ")") ++ " AS " ++ col.name) ∧
    (col.datatype ≠ "TIMESTAMP" → col.datatype ≠ "DATETIME" →
      where_condition schema col.name = .ok col.name ∧
      select_typecast col = col.name) := by
  refine ⟨fun hts => ?_, fun hdt => ?_, fun hnts hndt => ?_⟩
  · constructor
    · rw [where_condition, h]
      simp [hts]
    · rw [select_typecast]
      simp only [hts, if_pos rfl, if_true]
      apply String.ext
      simp [String.data_append, List.append_assoc]
  · have hne : col.datatype ≠ "TIMESTAMP" := by
      rw [hdt]
      decide
    constructor
    · rw [where_condition, h]
      simp [hne, hdt]
    · rw [select_typecast]
      simp only [hne, if_false, hdt, if_pos rfl, if_true]
      apply String.ext
      simp [String.data_append, List.append_assoc]
  · constructor
    · rw [where_condition, h]
      simp [hnts, hndt]
    · rw [select_typecast]
      simp [hnts, hndt]

/-- Witness for C3: the fragment shapes evaluated on the concrete demo
schema, at its TIMESTAMP column and at its plain INTEGER column. -/
theorem typecast_fragments_witness :
    where_condition demoSchema "ts" =
      .ok "CAST(strftime('%s', ts) as integer)" ∧
    select_typecast demoTsCol = "CAST(strftime('%s', ts) as integer) AS ts" ∧
    where_condition demoSchema "id" = .ok "id" ∧
    select_typecast demoIdCol = "id" := by
  have hts := typecast_fragments demoSchema demoTsCol (by rfl)
  have hid := typecast_fragments demoSchema demoIdCol (by rfl)
  have h1 := hts.1 (by rfl)
  have h2 := (hid.2.2 (by decide) (by decide))
  exact ⟨h1.1, by rw [h1.2]; rfl, h2.1, h2.2⟩

/-- Counterexample to claim C2 as stated: on a concrete one-column schema,
looking up a name with no descriptor does fail, but the raised error is the
builtin ValueError, not an instance of the InvalidArgument ApiException
class. -/
theorem where_condition_unknown_counterexample :
    where_condition [demoIdCol] "nosuch" =
      .error (.valueError "Non-existent column specified") ∧
    (PyErr.valueError
        "Non-existent column specified").isInvalidArgumentClass = false := by
  exact ⟨rfl, rfl⟩

/-- Claim C2 as amended: for every column name that matches no descriptor in
the schema, `where_condition` fails — with the builtin
ValueError("Non-existent column specified"), which is not an
InvalidArgument-class ApiException — and it never silently returns a
fragment for such a name. -/
theorem where_condition_unknown (schema : List Column) (column : String)
    (h : ∀ c ∈ schema, c.name ≠ column) :
    where_condition schema column =
      .error (.valueError "Non-existent column specified") ∧
    (PyErr.valueError
        "Non-existent column specified").isInvalidArgumentClass = false ∧
    (∀ s, where_condition schema column ≠ .ok s) := by
  have hfind : schema.find? (fun c => c.name == column) = none := by
    rw [List.find?_eq_none]
    intro c hc
    simpa using h c hc
  refine ⟨?_, rfl, ?_⟩
  · rw [where_condition, hfind]
  · intro s hs
    rw [where_condition, hfind] at hs
    exact Except.noConfusion hs

/-- Witness for C2 (amended): the unknown-name failure evaluated on the
concrete demo schema. -/
theorem where_condition_unknown_witness :
    where_condition demoSchema "nosuch" =
      .error (.valueError "Non-existent column specified") := by
  exact (where_condition_unknown demoSchema "nosuch" (by decide)).1

/-- Claim C5: the Exception Translator maps every ApiException instance to
its kind's fixed HTTP status — NotFound 404, MethodNotAllowed 405,
InvalidArgument 406, Conflict 409, Timeout 500, InternalError 500,
NotImplemented 501 — with a payload carrying the message and a details field
only when details are present (truthy). -/
theorem exception_translator_domain (kind : ApiExcKind) (m : String)
    (d : Option Jv) (frames : List String) :
    exception_response (some (.exc (.apiException kind m d) frames)) =
      ((match kind with
        | .notFound => 404
        | .methodNotAllowed => 405
        | .invalidArgument => 406
        | .conflict => 409
        | .timeout => 500
        | .internalError => 500
        | .notImplemented => 501),
       Jv.obj (("message", Jv.str m) ::
         (match d with
          | some dv => if dv.truthy = true then [("details", dv)] else []
          | none => []))) := by
  cases kind <;> rfl

/-- Claim C6: `exception_response(None)` yields a 500 response whose payload
references the received None; every non-ApiException error yields 500 with
the last trace frame as `error` and the remaining frames `e[1:-1]` joined as
`trace`; and the translation is total — for every argument it either returns
the body's result or degrades to the generic internal-failure 500 payload,
never raising. -/
theorem exception_translator_unexpected :
    (exception_response none =
      (500, Jv.obj [("error", .str "Unknown"),
        ("details", .str "api.exception_response() received: None!")])) ∧
    (∀ (e : PyErr) (fs : List String) (lastF : String),
      e.hasApiMarker = false →
      exception_response (some (.exc e (fs ++ [lastF]))) =
        (500, Jv.obj [("error", .str lastF),
          ("trace", .str (String.join (fs.drop 1)))])) ∧
    (∀ a : ExcArg,
      exception_response_body a = .ok (exception_response (some a)) ∨
      exception_response (some a) =
        (500, Jv.obj [("error", .str "Internal Error"),
          ("details", .str "api.exception_response() internal failure!")])) := by
  refine ⟨rfl, ?_, ?_⟩
  · intro e fs lastF hmark
    have hlast : (fs ++ [lastF]).getLast? = some lastF :=
      List.getLast?_concat fs
    have hmid : ((fs ++ [lastF]).drop 1).dropLast = fs.drop 1 := by
      cases fs with
      | nil => rfl
      | cons a rest =>
        have h1 : ((a :: rest) ++ [lastF]).drop 1 = rest ++ [lastF] := rfl
        rw [h1, List.dropLast_concat, List.drop_one, List.tail_cons]
    cases e with
    | apiException k msg dtl => exact absurd hmark (by simp [PyErr.hasApiMarker])
    | valueError msg =>
      rw [exception_response]
      simp only [exception_response_body, hlast, hmid]
    | typeError msg =>
      rw [exception_response]
      simp only [exception_response_body, hlast, hmid]
  · intro a
    cases h : exception_response_body a with
    | ok r =>
      left
      have hr : exception_response (some a) = r := by
        simp [exception_response, h]
      rw [hr]
    | error u =>
      right
      simp [exception_response, h]

/-- Witness for C6: the generic-error branch evaluated at a concrete
three-frame traceback. -/
theorem exception_translator_unexpected_witness :
    exception_response (some (.exc (.valueError "boom")
        ["Traceback (most recent call last):\n",
         "  File x, line 1\n",
         "ValueError: boom\n"])) =
      (500, Jv.obj [("error", .str "ValueError: boom\n"),
        ("trace", .str "  File x, line 1\n")]) := by
  have h := exception_translator_unexpected.2.1 (.valueError "boom")
    ["Traceback (most recent call last):\n", "  File x, line 1\n"]
    "ValueError: boom\n" rfl
  exact h

theorem getKey_setKey (l : List (String × Jv)) (k : String) (v : Jv) :
    getKey k (setKey k v l) = some v := by
  induction l with
  | nil => simp [setKey, getKey]
  | cons p rest ih =>
    by_cases h : p.1 = k
    · simp [setKey, getKey, h]
    · simp [setKey, getKey, h, ih]

/-- Claim C7: for every status code and dict payload, `__make_response`
stores the api metadata object {version, t_cpu, t_real} into the payload
before serialization, with version the configured API version integer; and
for every serializer outcome the builder either returns the serialized
response with the given status or catches the failure and answers the
minimal 500 response — it never raises. -/
theorem make_response_envelope (ctx : Ctx) (ser : Jv → Except String String)
    (code : Nat) (payload : List (String × Jv)) :
    getKey "api" (setKey "api" (apiMeta ctx) payload) =
      some (Jv.obj [("version", Jv.int ctx.apiversion),
        ("t_cpu", Jv.int ctx.tCpu), ("t_real", Jv.int ctx.tReal)]) ∧
    ((∃ body, ser (Jv.obj (setKey "api" (apiMeta ctx) payload)) = .ok body ∧
        make_response ctx ser code payload =
          { response := body, status := code,
            headers := [("Allow", String.intercalate ", "
                (ctx.urlMethods.filter
                  (fun m => decide (m ∉ ["HEAD", "OPTIONS"])))),
              ("Content-Type", "application/json")] }) ∨
     (∃ e, ser (Jv.obj (setKey "api" (apiMeta ctx) payload)) = .error e ∧
        make_response ctx ser code payload =
          { response := "api.__make_response() Internal Error: " ++ e,
            status := 500, headers := [] })) := by
  constructor
  · rw [getKey_setKey]
    rfl
  · cases h : ser (Jv.obj (setKey "api" (apiMeta ctx) payload)) with
    | ok body =>
      left
      exact ⟨body, rfl, by simp [make_response, h]⟩
    | error e =>
      right
      exact ⟨e, rfl, by simp [make_response, h]⟩

/-- Claim C8: for every cursor-like result, the CSV generator's first chunk
is exactly the CSV header row built from the result's column names, followed
by exactly one chunk per data row; for a zero-row result the whole output is
exactly the header line. -/
theorem csv_stream_shape (cursor : Cursor) :
    (generate cursor).length = 1 + cursor.rows.length ∧
    (generate cursor).head? = some (csvRow cursor.description) ∧
    (generate cursor).tail = cursor.rows.map csvRow ∧
    (cursor.rows = [] → generate cursor = [csvRow cursor.description]) := by
  refine ⟨?_, rfl, rfl, ?_⟩
  · simp [generate]
    omega
  · intro h
    simp [generate, h]

/-- Witness for C8: a two-column, zero-row cursor streams exactly its header
line. -/
theorem csv_stream_shape_witness :
    generate { description := ["a", "b"], rows := [] } = ["a,b\r\n"] := by
  have h := (csv_stream_shape { description := ["a", "b"], rows := [] }).2.2.2
    rfl
  rw [h]
  rfl

set_option maxRecDepth 10000 in
/-- Claim C9: the hitcount column enumeration is a fixed pure function of
nothing (hence identical on every run) and comprises exactly 37 sectors ×
(12 proton + 8 electron) = 740 sector counters plus 2 telescopes × (2 ac +
4 d1 + 1 d2 + 2 trash) = 18 telescope counters, in addition to the fixed
key columns timestamp and session_id; the generated names are exactly the
sNNpNN/sNNeNN and st/rt counter schemes. -/
theorem hitcount_enumeration :
    hitcountColumns.take 2 = ["timestamp", "session_id"] ∧
    hitcountColumns.drop 2 = hitcountSectorCols ++ hitcountTelescopeCols ∧
    hitcountSectorCols.length = 37 * (12 + 8) ∧
    hitcountTelescopeCols.length = 2 * (2 + 4 + 1 + 2) ∧
    hitcountColumns.length = 2 + 37 * 20 + 2 * 9 ∧
    (∀ s : String, s ∈ hitcountSectorCols ↔
      ∃ sector, sector < 37 ∧
        ((∃ p, 1 ≤ p ∧ p < 13 ∧ s = "s" ++ pad2 sector ++ "p" ++ pad2 p) ∨
         (∃ e, 1 ≤ e ∧ e < 9 ∧ s = "s" ++ pad2 sector ++ "e" ++ pad2 e))) ∧
    (∀ t s : String, s ∈ telescopeCols t ↔
      ((∃ a, 1 ≤ a ∧ a < 3 ∧ s = t ++ "ac" ++ toString a) ∨
       (∃ d, 1 ≤ d ∧ d < 5 ∧ s = t ++ "d1p" ++ toString d) ∨
       s = t ++ "d2p1" ∨
       (∃ r, 1 ≤ r ∧ r < 3 ∧ s = t ++ "trash" ++ toString r))) ∧
    (∀ s : String, s ∈ hitcountTelescopeCols ↔
      s ∈ telescopeCols "st" ∨ s ∈ telescopeCols "rt") := by
  refine ⟨rfl, rfl, rfl, rfl, rfl, ?_, ?_, ?_⟩
  · intro s
    simp only [hitcountSectorCols, List.mem_flatMap, List.mem_append,
      List.mem_map, List.mem_range, List.mem_range']
    constructor
    · rintro ⟨sector, hsec, hmem⟩
      refine ⟨sector, hsec, ?_⟩
      rcases hmem with ⟨a, ⟨i, hi, rfl⟩, rfl⟩ | ⟨a, ⟨i, hi, rfl⟩, rfl⟩
      · exact Or.inl ⟨1 + 1 * i, by omega, by omega, rfl⟩
      · exact Or.inr ⟨1 + 1 * i, by omega, by omega, rfl⟩
    · rintro ⟨sector, hsec, hcase⟩
      refine ⟨sector, hsec, ?_⟩
      rcases hcase with ⟨p, hp1, hp2, rfl⟩ | ⟨e, he1, he2, rfl⟩
      · exact Or.inl ⟨p, ⟨p - 1, by omega, by omega⟩, rfl⟩
      · exact Or.inr ⟨e, ⟨e - 1, by omega, by omega⟩, rfl⟩
  · intro t s
    simp only [telescopeCols, List.mem_append, List.mem_map, List.mem_range',
      List.mem_singleton]
    constructor
    · rintro (((⟨a, ⟨i, hi, rfl⟩, rfl⟩ | ⟨d, ⟨i, hi, rfl⟩, rfl⟩) | rfl) |
        ⟨r, ⟨i, hi, rfl⟩, rfl⟩)
      · exact Or.inl ⟨1 + 1 * i, by omega, by omega, rfl⟩
      · exact Or.inr (Or.inl ⟨1 + 1 * i, by omega, by omega, rfl⟩)
      · exact Or.inr (Or.inr (Or.inl rfl))
      · exact Or.inr (Or.inr (Or.inr ⟨1 + 1 * i, by omega, by omega, rfl⟩))
    · rintro (⟨a, ha1, ha2, rfl⟩ | ⟨d, hd1, hd2, rfl⟩ | rfl |
        ⟨r, hr1, hr2, rfl⟩)
      · exact Or.inl (Or.inl (Or.inl ⟨a, ⟨a - 1, by omega, by omega⟩, rfl⟩))
      · exact Or.inl (Or.inl (Or.inr ⟨d, ⟨d - 1, by omega, by omega⟩, rfl⟩))
      · exact Or.inl (Or.inr rfl)
      · exact Or.inr ⟨r, ⟨r - 1, by omega, by omega⟩, rfl⟩
  · intro s
    simp [hitcountTelescopeCols]

/-- Witness for C9: concrete generated names evaluated through the
characterizations — the last electron counter of the last sector and the
last D1 counter of the rotating telescope. -/
theorem hitcount_enumeration_witness :
    "s36e08" ∈ hitcountSectorCols ∧ "rtd1p4" ∈ hitcountTelescopeCols := by
  constructor
  · exact (hitcount_enumeration.2.2.2.2.2.1 "s36e08").mpr
      ⟨36, by omega, Or.inr ⟨8, by omega, by omega, rfl⟩⟩
  · refine (hitcount_enumeration.2.2.2.2.2.2.2 "rtd1p4").mpr (Or.inr ?_)
    exact (hitcount_enumeration.2.2.2.2.2.2.1 "rt" "rtd1p4").mpr
      (Or.inr (Or.inl ⟨4, by omega, by omega, rfl⟩))

/-- Claim C10: `str()` of any column descriptor raises TypeError instead of
returning the column name — `DotDict.__str__` evaluates `self.getattr`,
which the `__getattr__ = dict.get` fallback resolves to None, and None is
not callable; hence `str()` of any DataObject with at least one descriptor
raises as well, since `DataObject.__str__` maps str over its descriptors. -/
theorem dotdict_str_raises :
    (∀ (n dt : String) (nl : Bool) (df : Option String) (pk : Bool),
      dotDictStr (mkDescriptor n dt nl df pk) =
        .error (.typeError "'NoneType' object is not callable")) ∧
    (∀ descs : List (List (String × PyVal)),
      (∀ d ∈ descs, ∃ n dt nl df pk, d = mkDescriptor n dt nl df pk) →
      descs ≠ [] →
      dataObjectStr descs =
        .error (.typeError "'NoneType' object is not callable")) := by
  have hone : ∀ (n dt : String) (nl : Bool) (df : Option String) (pk : Bool),
      dotDictStr (mkDescriptor n dt nl df pk) =
        .error (.typeError "'NoneType' object is not callable") := by
    intro n dt nl df pk
    rfl
  refine ⟨hone, ?_⟩
  intro descs hall hne
  cases descs with
  | nil => exact absurd rfl hne
  | cons d rest =>
    obtain ⟨n, dt, nl, df, pk, rfl⟩ := hall d (List.mem_cons_self d rest)
    simp [dataObjectStr, strEach, hone]

/-- Witness for C10: a DataObject over one concrete integer-primary-key
descriptor fails to render with the NoneType TypeError. -/
theorem dotdict_str_raises_witness :
    dataObjectStr [mkDescriptor "id" "INTEGER" false none true] =
      .error (.typeError "'NoneType' object is not callable") := by
  refine dotdict_str_raises.2 [mkDescriptor "id" "INTEGER" false none true]
    ?_ (by simp)
  intro d hd
  rw [List.mem_singleton] at hd
  exact ⟨"id", "INTEGER", false, none, true, hd⟩

end Pmgui
